import Mathlib

/-!
Shallow embedding of the admission-control pipeline of the regrada backend:
tier limit tables, the rate-limit middleware, the usage-metering middleware,
the API-key authentication middleware with its Redis-backed auth cache, and
the route wiring of the HTTP server. Each definition is translated from the
corresponding Go source; theorems settle the spec claims about them.

Modelling conventions: Unix timestamps are `Nat` (Go `time.Time.Unix()` is
nonnegative for all realistic clock values, so Go's truncating `/ 60` agrees
with `Nat` floor division); Redis / Postgres stores are total functions from
key to value; a fallible store call is modelled by passing the call's result
(`Bool` for success, `Option` for a value-or-error) as an explicit parameter.
-/

namespace Regrada

/-! ### Tier limit tables -/

/-- Translation of `RateLimitMiddleware.getLimitForTier`
(internal/api/middleware, rate-limit middleware): the per-minute request
limit the rate limiter uses for a tier string. The Go `switch` has cases
for `"enterprise"`, `"pro"` and `"standard"` and a default of 100. -/
def getLimitForTier (tier : String) : Nat :=
  if tier = "enterprise" then 2000
  else if tier = "pro" then 500
  else if tier = "standard" then 100
  else 100

/-- Translation of `rateLimitForTier` (internal/api/handlers/api_keys.go):
the per-minute rate limit recorded on an API key at creation time, keyed by
the system's tier names. -/
def rateLimitForTier (tier : String) : Nat :=
  if tier = "starter" then 10
  else if tier = "team" then 100
  else if tier = "scale" then 500
  else if tier = "enterprise" then 2000
  else 10

/-- Translation of `monthlyLimitForTier` (internal/api/handlers/api_keys.go):
the monthly request quota for a tier. -/
def monthlyLimitForTier (tier : String) : Int :=
  if tier = "starter" then 50000
  else if tier = "team" then 500000
  else if tier = "scale" then 5000000
  else if tier = "enterprise" then 20000000
  else 50000

/-! ### Rate-limit middleware (`RateLimitMiddleware.Limit`) -/

/-- Request-scoped gin context values that the rate limiter reads:
`api_key_hash` (set only by the API-key auth middleware; the cookie auth
middleware never sets it), `tier` and `organization_id`. -/
structure ReqCtx where
  apiKeyHash : Option String
  tier : String
  organizationID : String
deriving DecidableEq

/-- State of the Redis counter keyspace used by the rate limiter:
number of `INCR`s already applied to each key. -/
def RateStore : Type := String → Nat

/-- Fixed window index used by the limiter: `now.Unix() / 60`. -/
def rateWindow (now : Nat) : Nat := now / 60

/-- Redis key built by the limiter: `fmt.Sprintf("ratelimit:%s:%d", keyHash, window)`. -/
def rateLimitKey (keyHash : String) (window : Nat) : String :=
  "ratelimit:" ++ keyHash ++ ":" ++ toString window

/-- Outcome of one pass through `RateLimitMiddleware.Limit`: whether the
request was aborted, the HTTP status and error code written on abort, and
the three `X-RateLimit-*` header values (absent when the middleware passed
through before setting them). -/
structure RateLimitResult where
  aborted : Bool
  httpStatus : Option Nat
  errorCode : Option String
  hLimit : Option Int
  hRemaining : Option Int
  hReset : Option Int
deriving DecidableEq

/-- Result of a pass-through with no headers written: the `c.Next()` taken
when `api_key_hash` is absent or when the Redis `INCR` errors. -/
def ratePass : RateLimitResult :=
  { aborted := false, httpStatus := none, errorCode := none,
    hLimit := none, hRemaining := none, hReset := none }

/-- Translation of `RateLimitMiddleware.Limit` (internal/api/middleware).
`redisOk` models whether the `INCR` round trip succeeds; on failure the Go
code returns `c.Next()` before writing any header (fail open). On success
the incremented count is compared against the tier limit; the three
`X-RateLimit-*` headers are written in both the admit and the reject case.
The `EXPIRE` issued on first increment only bounds Redis memory and is not
modelled. Returns the middleware outcome and the updated counter store. -/
def rateLimit (ctx : ReqCtx) (now : Nat) (redisOk : Bool) (store : RateStore) :
    RateLimitResult × RateStore :=
  match ctx.apiKeyHash with
  | none => (ratePass, store)
  | some keyHash =>
    let limit := getLimitForTier ctx.tier
    let window := rateWindow now
    let key := rateLimitKey keyHash window
    if redisOk then
      let count := store key + 1
      let store2 : RateStore := fun k => if k = key then count else store k
      let base : RateLimitResult :=
        { aborted := false, httpStatus := none, errorCode := none,
          hLimit := some (limit : Int),
          hRemaining := some (max 0 ((limit : Int) - (count : Int))),
          hReset := some (((window : Int) + 1) * 60) }
      if limit < count then
        ({ base with aborted := true, httpStatus := some 429,
                     errorCode := some "RATE_LIMIT_EXCEEDED" }, store2)
      else
        (base, store2)
    else
      (ratePass, store)

/-- Counter store in which no key has been incremented yet. -/
def zeroStore : RateStore := fun _ => 0

/-- Iterated requests from the same context in the same window: the counter
store after `n` sequential successful passes through the limiter. -/
def runRequests (ctx : ReqCtx) (now : Nat) (store : RateStore) : Nat → RateStore
  | 0 => store
  | n + 1 => (rateLimit ctx now true (runRequests ctx now store n)).2

/-! ### Usage-metering middleware (`UsageMiddleware.TrackUsage`) -/

/-- Organization row as read by the usage middleware
(internal/storage, `Organization`): tier, monthly quota, monthly counter and
the reset boundary (Unix seconds; Go stores a `time.Time`). -/
structure Organization where
  tier : String
  monthlyRequestLimit : Int
  monthlyRequestCount : Int
  usageResetAt : Nat
deriving DecidableEq

/-- Outcome of one pass through `UsageMiddleware.TrackUsage`: abort flag,
HTTP status and error code written on abort, the three `X-Monthly-*` header
values when they were written, and whether the Go code would dereference a
nil organization (the refetch after a reset ignores the `Get` error). -/
structure UsageDecision where
  aborted : Bool
  httpStatus : Option Nat
  errorCode : Option String
  hMonthlyLimit : Option Int
  hMonthlyUsed : Option Int
  hMonthlyReset : Option Nat
  crashed : Bool
deriving DecidableEq

/-- Pass-through taken before any header is written: empty `organization_id`
or a failed atomic increment (fail open). -/
def usagePass : UsageDecision :=
  { aborted := false, httpStatus := none, errorCode := none,
    hMonthlyLimit := none, hMonthlyUsed := none, hMonthlyReset := none,
    crashed := false }

/-- Usage percentage computed by the middleware:
`float64(org.MonthlyRequestCount) / float64(org.MonthlyRequestLimit) * 100`,
modelled exactly over the rationals. -/
def usagePercentQ (org : Organization) : ℚ :=
  (org.monthlyRequestCount : ℚ) / (org.monthlyRequestLimit : ℚ) * 100

/-- Effective tier used for enforcement: `c.GetString("tier")` with a
fallback to `org.Tier` when the context value is empty. -/
def effTier (ctxTier : String) (org : Organization) : String :=
  if ctxTier = "" then org.tier else ctxTier

/-- Translation of `UsageMiddleware.TrackUsage` (internal/api/middleware).
Store round trips are passed in as results: `incr` is the value returned by
the atomic `IncrementRequestCount` (`none` models an error, handled fail
open), `resetOk` whether the `ResetMonthlyUsage` call taken when `now` is
past `org.UsageResetAt` succeeds, and `refetch` the result of the follow-up
`Get` (whose error the Go code discards, so a failed refetch leaves a nil
organization — modelled as `crashed`). After the optional reset the code
computes the usage percentage, writes the `X-Monthly-*` headers, and
enforces the tier policy: starter blocks with 402 at 100%, team and scale
throttle with 429 at 120%, every other tier (enterprise included) passes. -/
def trackUsage (orgID ctxTier : String) (now : Nat)
    (incr : Option Organization) (resetOk : Bool)
    (refetch : Option Organization) : UsageDecision :=
  if orgID = "" then usagePass
  else
    match incr with
    | none => usagePass
    | some org0 =>
      let afterReset : Option Organization :=
        if org0.usageResetAt < now then
          if resetOk then refetch else some org0
        else some org0
      match afterReset with
      | none => { usagePass with crashed := true }
      | some org =>
        let p := usagePercentQ org
        let tier := effTier ctxTier org
        let base : UsageDecision :=
          { aborted := false, httpStatus := none, errorCode := none,
            hMonthlyLimit := some org.monthlyRequestLimit,
            hMonthlyUsed := some org.monthlyRequestCount,
            hMonthlyReset := some org.usageResetAt,
            crashed := false }
        if tier = "starter" ∧ 100 ≤ p then
          { base with aborted := true, httpStatus := some 402,
                      errorCode := some "USAGE_LIMIT_EXCEEDED" }
        else if (tier = "team" ∨ tier = "scale") ∧ 120 ≤ p then
          { base with aborted := true, httpStatus := some 429,
                      errorCode := some "USAGE_LIMIT_THROTTLED" }
        else base

/-! ### Atomic monthly counter (`OrganizationRepository.IncrementRequestCount`) -/

/-- Monthly request counters of the persistent store, per organization id. -/
def UsageStore : Type := String → Int

/-- Modelled from the spec: the Postgres implementation of
`OrganizationRepository.IncrementRequestCount` is not under src — only the
`storage.OrganizationRepository` interface and the middleware caller are.
The spec requires it to "atomically increment the organization's monthly
counter and fetch the updated state in one operation", so the operation is
a single atomic event: it bumps the organization's counter and returns the
updated value together with the updated store. -/
def incrementRequestCount (store : UsageStore) (orgID : String) :
    UsageStore × Int :=
  let n := store orgID + 1
  (fun o => if o = orgID then n else store o, n)

/-- Serialization of a concurrent execution: because each increment is one
atomic event, any interleaving of increments (for this organization and
others) is a sequence of organization ids applied in some order. -/
def runIncrements (store : UsageStore) : List String → UsageStore
  | [] => store
  | o :: os => runIncrements (incrementRequestCount store o).1 os

/-! ### API-key authentication middleware (`AuthMiddleware.Authenticate`) -/

/-- API-key row as read by the auth middleware (internal/storage, `APIKey`),
restricted to the fields the admission pipeline consults. `expiresAt` and
`revokedAt` are optional Unix timestamps (Go `*time.Time`). -/
structure APIKey where
  organizationID : String
  tier : String
  rateLimitRPM : Int
  expiresAt : Option Nat
  revokedAt : Option Nat
deriving DecidableEq

/-- Result of `apiKeyRepo.GetByHash`: a record, `storage.ErrNotFound`, or
any other (infrastructure) error. -/
inductive KeyLookup where
  | found (k : APIKey)
  | notFound
  | dbError
deriving DecidableEq

/-- Terminal outcome of the auth middleware for one request: the request is
admitted with the organization id and tier stored into the context, or it
is aborted with 401 `UNAUTHORIZED`, or with 500 `INTERNAL_ERROR`. -/
inductive AuthOutcome where
  | admitted (orgID tier : String)
  | unauthorized
  | internalError
deriving DecidableEq

/-- HTTP status written for each auth outcome. -/
def authStatus : AuthOutcome → Option Nat
  | .admitted _ _ => none
  | .unauthorized => some 401
  | .internalError => some 500

/-- Expiry test of the middleware:
`apiKeyData.ExpiresAt != nil && apiKeyData.ExpiresAt.Before(time.Now())`. -/
def isExpired (k : APIKey) (now : Nat) : Bool :=
  match k.expiresAt with
  | some t => t < now
  | none => false

/-- Auth-cache entry for one key hash. The Go code writes three Redis keys
(`apikey:`, `apikey:tier:`, `apikey:org:` prefixes) back to back with the
same 5-minute TTL; they are modelled as one record stamped with the write
time and the TTL in seconds. -/
structure CacheEntry where
  writtenAt : Nat
  ttlSeconds : Nat
  tier : String
  orgID : String
deriving DecidableEq

/-- State of the auth cache keyspace: the entry stored per key hash, if
any. Redis expiry is modelled in the read: an entry is visible only while
`now < writtenAt + ttlSeconds`. -/
def CacheMap : Type := String → Option CacheEntry

/-- Cache-hit test: all three Redis reads succeed with nonempty values,
which requires the entry to be unexpired and its tier and organization
strings nonempty (the validity marker is the constant `"valid"`). -/
def cacheHit (e : CacheEntry) (now : Nat) : Bool :=
  decide (now < e.writtenAt + e.ttlSeconds) && !(e.tier = "") && !(e.orgID = "")

/-- Translation of the cache-miss tail of `AuthMiddleware.Authenticate`:
the authoritative `GetByHash` lookup. `ErrNotFound` aborts with 401, any
other lookup error aborts with 500 (fail closed), a revoked or expired
record aborts with 401, and only a currently valid record is admitted — in
which case, and only then, the three cache keys are written with a 5-minute
(300-second) TTL. The asynchronous `UpdateLastUsed` touch does not affect
the outcome and is not modelled. -/
def authOnMiss (res : KeyLookup) (cache : CacheMap) (keyHash : String)
    (now : Nat) : AuthOutcome × CacheMap :=
  match res with
  | .dbError => (.internalError, cache)
  | .notFound => (.unauthorized, cache)
  | .found k =>
    if k.revokedAt.isSome then (.unauthorized, cache)
    else if isExpired k now then (.unauthorized, cache)
    else
      (.admitted k.organizationID k.tier,
       fun h => if h = keyHash then
          some { writtenAt := now, ttlSeconds := 300,
                 tier := k.tier, orgID := k.organizationID }
        else cache h)

/-- Translation of `AuthMiddleware.Authenticate` after header parsing and
hashing: an unexpired cache entry with nonempty tier and organization is
admitted directly from the cache; otherwise the authoritative lookup runs.
`db` gives the `GetByHash` result as of each instant, so a revocation is a
change of `db` over time. -/
def authenticate (db : Nat → KeyLookup) (cache : CacheMap) (keyHash : String)
    (now : Nat) : AuthOutcome × CacheMap :=
  match cache keyHash with
  | some e =>
    if cacheHit e now then (.admitted e.orgID e.tier, cache)
    else authOnMiss (db now) cache keyHash now
  | none => authOnMiss (db now) cache keyHash now

/-- Sequential trace of authentication attempts for one key hash at the
given instants, threading the cache. -/
def runAuth (db : Nat → KeyLookup) (keyHash : String) :
    CacheMap → List Nat → CacheMap
  | cache, [] => cache
  | cache, t :: ts => runAuth db keyHash (authenticate db cache keyHash t).2 ts

/-! ### Route wiring (cmd/server.go, protected group) -/

/-- Middlewares attached to the protected route group. `trackUsage` is the
`UsageMiddleware.TrackUsage` handler; it exists in the middleware package
but `cmd/server.go` registers only `eitherAuth.Authenticate()` and
`rateLimitMiddleware.Limit()` on the group. -/
inductive MW where
  | eitherAuth
  | rateLimit
  | trackUsage
deriving DecidableEq

/-- Route of the protected group: method, path, and the middleware chain a
request traverses before the business handler. -/
structure Route where
  method : String
  path : String
  chain : List MW
deriving DecidableEq

/-- Middleware chain of every route in the protected group of
`cmd/server.go`: the group is created with `protected.Use(eitherAuth)` and
`protected.Use(rateLimitMiddleware.Limit())` and nothing else; no route
adds `TrackUsage`. -/
def protectedChain : List MW := [MW.eitherAuth, MW.rateLimit]

/-- Translation of the protected route group of `cmd/server.go` (the
conditional email route included, as registered when the email service is
configured). Every route inherits exactly the group chain. -/
def protectedRoutes : List Route :=
  [⟨"GET", "/v1/organizations", protectedChain⟩,
   ⟨"PUT", "/v1/organizations/:orgID", protectedChain⟩,
   ⟨"DELETE", "/v1/organizations/:orgID", protectedChain⟩,
   ⟨"POST", "/v1/organizations/:orgID/invite", protectedChain⟩,
   ⟨"GET", "/v1/organizations/:orgID/users", protectedChain⟩,
   ⟨"PUT", "/v1/organizations/:orgID/members/:userID", protectedChain⟩,
   ⟨"DELETE", "/v1/organizations/:orgID/members/:userID", protectedChain⟩,
   ⟨"POST", "/v1/organizations/:orgID/invites", protectedChain⟩,
   ⟨"GET", "/v1/organizations/:orgID/invites", protectedChain⟩,
   ⟨"POST", "/v1/invites/:token/accept", protectedChain⟩,
   ⟨"DELETE", "/v1/organizations/:orgID/invites/:inviteID", protectedChain⟩,
   ⟨"GET", "/v1/users/me", protectedChain⟩,
   ⟨"GET", "/v1/users/:userID", protectedChain⟩,
   ⟨"PUT", "/v1/users/:userID", protectedChain⟩,
   ⟨"POST", "/v1/users/:userID/profile-picture", protectedChain⟩,
   ⟨"DELETE", "/v1/users/:userID/profile-picture", protectedChain⟩,
   ⟨"DELETE", "/v1/users/:userID", protectedChain⟩,
   ⟨"GET", "/v1/api-keys", protectedChain⟩,
   ⟨"POST", "/v1/api-keys", protectedChain⟩,
   ⟨"GET", "/v1/api-keys/:keyID", protectedChain⟩,
   ⟨"PUT", "/v1/api-keys/:keyID", protectedChain⟩,
   ⟨"POST", "/v1/api-keys/:keyID/revoke", protectedChain⟩,
   ⟨"DELETE", "/v1/api-keys/:keyID", protectedChain⟩,
   ⟨"POST", "/v1/email/send", protectedChain⟩,
   ⟨"POST", "/v1/projects", protectedChain⟩,
   ⟨"GET", "/v1/projects", protectedChain⟩,
   ⟨"GET", "/v1/projects/:projectID", protectedChain⟩,
   ⟨"POST", "/v1/projects/:projectID/traces", protectedChain⟩,
   ⟨"POST", "/v1/projects/:projectID/traces/batch", protectedChain⟩,
   ⟨"GET", "/v1/projects/:projectID/traces", protectedChain⟩,
   ⟨"GET", "/v1/projects/:projectID/traces/:traceID", protectedChain⟩,
   ⟨"POST", "/v1/projects/:projectID/test-runs", protectedChain⟩,
   ⟨"GET", "/v1/projects/:projectID/test-runs", protectedChain⟩,
   ⟨"GET", "/v1/projects/:projectID/test-runs/:runID", protectedChain⟩]

/-- Metered routes named by the spec: trace ingestion, batch trace
ingestion and test-run upload. -/
def meteredRoutes : List (String × String) :=
  [("POST", "/v1/projects/:projectID/traces"),
   ("POST", "/v1/projects/:projectID/traces/batch"),
   ("POST", "/v1/projects/:projectID/test-runs")]

/-- Request context produced by the API-key auth middleware for a key
record: it stores the key hash, the record's organization id and its tier
into the gin context (`c.Set` calls of `AuthMiddleware.Authenticate`). -/
def ctxOfKey (k : APIKey) (keyHash : String) : ReqCtx :=
  { apiKeyHash := some keyHash, tier := k.tier, organizationID := k.organizationID }

/-! ### Helper lemmas on the rate limiter -/

/-- Store effect of a successful pass through the limiter on the API-key
path: exactly the window key of this principal is incremented. -/
theorem rateLimit_snd (ctx : ReqCtx) (keyHash : String) (now : Nat)
    (store : RateStore) (h : ctx.apiKeyHash = some keyHash) :
    (rateLimit ctx now true store).2 = fun k =>
      if k = rateLimitKey keyHash (rateWindow now)
      then store (rateLimitKey keyHash (rateWindow now)) + 1 else store k := by
  simp only [rateLimit, h, if_true]
  split <;> rfl

/-- Middleware result of a successful pass through the limiter on the
API-key path, as a single case split on the incremented count against the
tier limit. -/
theorem rateLimit_fst (ctx : ReqCtx) (keyHash : String) (now : Nat)
    (store : RateStore) (h : ctx.apiKeyHash = some keyHash) :
    (rateLimit ctx now true store).1 =
      (if getLimitForTier ctx.tier < store (rateLimitKey keyHash (rateWindow now)) + 1 then
        { aborted := true, httpStatus := some 429, errorCode := some "RATE_LIMIT_EXCEEDED",
          hLimit := some (getLimitForTier ctx.tier : Int),
          hRemaining := some (max 0 ((getLimitForTier ctx.tier : Int) -
            ((store (rateLimitKey keyHash (rateWindow now)) + 1 : Nat) : Int))),
          hReset := some (((rateWindow now : Int) + 1) * 60) }
      else
        { aborted := false, httpStatus := none, errorCode := none,
          hLimit := some (getLimitForTier ctx.tier : Int),
          hRemaining := some (max 0 ((getLimitForTier ctx.tier : Int) -
            ((store (rateLimitKey keyHash (rateWindow now)) + 1 : Nat) : Int))),
          hReset := some (((rateWindow now : Int) + 1) * 60) }) := by
  simp only [rateLimit, h, if_true]
  split <;> rfl

/-- Counter value after `n` sequential successful requests from the same
principal in the same window, starting from the empty store. -/
theorem runRequests_count (ctx : ReqCtx) (keyHash : String) (now : Nat)
    (h : ctx.apiKeyHash = some keyHash) (n : Nat) :
    runRequests ctx now zeroStore n (rateLimitKey keyHash (rateWindow now)) = n := by
  induction n with
  | zero => rfl
  | succ m ih =>
    rw [runRequests, rateLimit_snd ctx keyHash now _ h]
    simp [ih]

/-! ### Claim theorems -/

/-- C9: the claim asserts the rate limiter's static per-tier table is
strictly monotone over starter < team < scale < enterprise. The code is not:
`getLimitForTier` matches the legacy tier names `"pro"` and `"standard"`
(renamed to `"scale"` and `"team"` by the tier migration), so `"starter"`,
`"team"` and `"scale"` all fall to the default 100, while the key-creation
table `rateLimitForTier` — which uses the current tier names — is strictly
monotone as the claim states. -/
theorem rate_limiter_tier_table_evaluated :
    getLimitForTier "starter" = 100 ∧ getLimitForTier "team" = 100 ∧
    getLimitForTier "scale" = 100 ∧ getLimitForTier "enterprise" = 2000 ∧
    ¬ getLimitForTier "starter" < getLimitForTier "team" ∧
    ¬ getLimitForTier "team" < getLimitForTier "scale" ∧
    rateLimitForTier "starter" < rateLimitForTier "team" ∧
    rateLimitForTier "team" < rateLimitForTier "scale" ∧
    rateLimitForTier "scale" < rateLimitForTier "enterprise" := by
  decide

/-- C5: both throttle gates fail open. A failed Redis `INCR` makes the rate
limiter pass the request through with no abort, no response written and the
counter store untouched, and a failed `IncrementRequestCount` makes the
usage gate pass the request through identically — in both cases the request
proceeds to the next handler exactly as an admitted request does. -/
theorem gates_fail_open (ctx : ReqCtx) (now : Nat) (store : RateStore)
    (orgID ctxTier : String) (now2 : Nat) (resetOk : Bool)
    (refetch : Option Organization) :
    rateLimit ctx now false store = (ratePass, store) ∧
    trackUsage orgID ctxTier now2 none resetOk refetch = usagePass := by
  refine ⟨?_, ?_⟩
  · cases h : ctx.apiKeyHash <;> simp [rateLimit, h]
  · by_cases h : orgID = "" <;> simp [trackUsage, h]

/-- C10: the rate-limit outcome and headers for an API-key request are a
function of the tier and the window count only; two key records that differ
only in `rateLimitRPM` produce identical middleware results and identical
counter stores, because neither the auth context nor
`RateLimitMiddleware.Limit` ever reads `rateLimitRPM`. -/
theorem rate_limit_ignores_rateLimitRPM (k : APIKey) (rpm : Int)
    (keyHash : String) (now : Nat) (redisOk : Bool) (store : RateStore) :
    rateLimit (ctxOfKey { k with rateLimitRPM := rpm } keyHash) now redisOk store =
      rateLimit (ctxOfKey k keyHash) now redisOk store := rfl

/-- C8: concurrent usage-tracking increments are never lost. Each
`IncrementRequestCount` is one atomic event, so any interleaving of
concurrent calls is a serialization; after executing any such sequence, an
organization's stored counter equals its prior value plus the number of
increments addressed to it. -/
theorem concurrent_increments_never_lost (es : List String)
    (store : UsageStore) (O : String) :
    runIncrements store es O = store O + es.count O := by
  induction es generalizing store with
  | nil => simp [runIncrements, List.count_nil]
  | cons o os ih =>
    rw [runIncrements, ih]
    simp only [incrementRequestCount, List.count_cons]
    by_cases h : O = o
    · subst h
      simp [beq_self_eq_true]
      ring
    · have hb : (o == O) = false := by
        simpa using fun hc => h hc.symm
      simp [h, hb]

/-- C3: evaluation of the route wiring at the metered routes. Every route
of the protected group in `cmd/server.go` — the metered trace-ingestion,
batch trace-ingestion and test-run-upload routes included — carries exactly
the chain `[eitherAuth, rateLimit]`: `UsageMiddleware.TrackUsage` is never
constructed or attached, so no request passes the usage gate before its
handler, contradicting the claim (and the middleware's own doc comment). -/
theorem metered_routes_missing_usage_gate :
    (∀ r ∈ protectedRoutes, r.chain = [MW.eitherAuth, MW.rateLimit]) ∧
    (∀ mp ∈ meteredRoutes, Route.mk mp.1 mp.2 protectedChain ∈ protectedRoutes) ∧
    MW.trackUsage ∉ protectedChain := by
  decide

/-- C3 witness: the trace-ingestion route is in the protected group and its
middleware chain is just authentication and rate limiting. -/
theorem metered_routes_missing_usage_gate_witness :
    (Route.mk "POST" "/v1/projects/:projectID/traces" protectedChain).chain =
      [MW.eitherAuth, MW.rateLimit] :=
  metered_routes_missing_usage_gate.1
    (Route.mk "POST" "/v1/projects/:projectID/traces" protectedChain) (by decide)

/-- Context of a session-cookie-authenticated request:
`CookieAuthMiddleware.Authenticate` stores `organization_id` (and user
fields) into the gin context but never `api_key_hash` or `tier`. -/
def cookieCtx : ReqCtx :=
  { apiKeyHash := none, tier := "", organizationID := "org-1" }

/-- Counter store in which every window counter already far exceeds every
tier limit. -/
def saturatedStore : RateStore := fun _ => 1000000

/-- C4 counterexample: a session-cookie-authenticated request on a
protected route is neither counted nor rejectable by the rate limiter. With
every window counter already at 1000000 — far beyond every tier limit — the
request passes the gate unaborted, no response is written, and the counter
store is left untouched, refuting the claim that the RateLimiter counts and
can reject every authenticated request. -/
theorem cookie_request_bypasses_rate_limiter :
    (rateLimit cookieCtx 0 true saturatedStore).1.aborted = false ∧
    (rateLimit cookieCtx 0 true saturatedStore).1.httpStatus = none ∧
    (rateLimit cookieCtx 0 true saturatedStore).2 = saturatedStore :=
  ⟨rfl, rfl, rfl⟩

/-- C4 amended: only API-key-authenticated requests (those with
`api_key_hash` in the context) are counted against their window and subject
to rejection by the RateLimiter; a request without `api_key_hash` — the
session-cookie path — passes the gate uncounted and is never rejected by
it. For the API-key path the gate increments the window counter and aborts
exactly when the incremented count exceeds the tier limit. -/
theorem rate_limiter_gates_api_key_requests_only (ctx : ReqCtx) (now : Nat)
    (store : RateStore) :
    (ctx.apiKeyHash = none → rateLimit ctx now true store = (ratePass, store)) ∧
    (∀ keyHash, ctx.apiKeyHash = some keyHash →
      ((rateLimit ctx now true store).2 (rateLimitKey keyHash (rateWindow now)) =
        store (rateLimitKey keyHash (rateWindow now)) + 1) ∧
      ((rateLimit ctx now true store).1.aborted = true ↔
        getLimitForTier ctx.tier <
          store (rateLimitKey keyHash (rateWindow now)) + 1)) := by
  refine ⟨fun h => by simp [rateLimit, h], fun keyHash h => ?_⟩
  constructor
  · rw [rateLimit_snd ctx keyHash now store h]
    simp
  · rw [rateLimit_fst ctx keyHash now store h]
    split <;> simp_all

/-- C4 amended witness: a cookie request passes untouched, and an API-key
request over the limit is aborted. -/
theorem rate_limiter_gates_api_key_requests_only_witness :
    rateLimit cookieCtx 0 true saturatedStore = (ratePass, saturatedStore) ∧
    ((rateLimit ⟨some "kh", "standard", "org-1"⟩ 0 true saturatedStore).1.aborted = true ↔
      getLimitForTier "standard" < saturatedStore (rateLimitKey "kh" (rateWindow 0)) + 1) :=
  ⟨(rate_limiter_gates_api_key_requests_only cookieCtx 0 saturatedStore).1 rfl,
   ((rate_limiter_gates_api_key_requests_only ⟨some "kh", "standard", "org-1"⟩ 0
      saturatedStore).2 "kh" rfl).2⟩

/-- C2: the fixed-window rate-limit gate. For an API-key request whose
`INCR` succeeds, the counter of the window `floor(now/60)` for this key is
incremented; the request is admitted iff the incremented count is at most
the tier limit and otherwise aborted with 429 `RATE_LIMIT_EXCEEDED`; the
`X-RateLimit-Remaining` header equals `max 0 (limit - count)` and is never
negative; `X-RateLimit-Reset` equals `(window + 1) * 60`; and, starting
from an empty window, requests `1 .. limit` are admitted while request
`limit + 1` is rejected with remaining 0. -/
theorem rate_limit_window_gate (ctx : ReqCtx) (keyHash : String) (now : Nat)
    (store : RateStore) (hk : ctx.apiKeyHash = some keyHash) :
    ((rateLimit ctx now true store).2 (rateLimitKey keyHash (rateWindow now)) =
      store (rateLimitKey keyHash (rateWindow now)) + 1) ∧
    ((rateLimit ctx now true store).1.aborted = false ↔
      store (rateLimitKey keyHash (rateWindow now)) + 1 ≤ getLimitForTier ctx.tier) ∧
    ((rateLimit ctx now true store).1.aborted = true →
      (rateLimit ctx now true store).1.httpStatus = some 429 ∧
      (rateLimit ctx now true store).1.errorCode = some "RATE_LIMIT_EXCEEDED") ∧
    ((rateLimit ctx now true store).1.hRemaining =
      some (max 0 ((getLimitForTier ctx.tier : Int) -
        ((store (rateLimitKey keyHash (rateWindow now)) + 1 : Nat) : Int)))) ∧
    (∀ r : Int, (rateLimit ctx now true store).1.hRemaining = some r → 0 ≤ r) ∧
    ((rateLimit ctx now true store).1.hReset =
      some (((rateWindow now : Int) + 1) * 60)) ∧
    (∀ n : Nat, 1 ≤ n → n ≤ getLimitForTier ctx.tier →
      (rateLimit ctx now true (runRequests ctx now zeroStore (n - 1))).1.aborted = false) ∧
    ((rateLimit ctx now true
        (runRequests ctx now zeroStore (getLimitForTier ctx.tier))).1.aborted = true) ∧
    ((rateLimit ctx now true
        (runRequests ctx now zeroStore (getLimitForTier ctx.tier))).1.hRemaining =
      some 0) := by
  have hsnd := rateLimit_snd ctx keyHash now store hk
  have hfst := rateLimit_fst ctx keyHash now store hk
  refine ⟨?_, ?_, ?_, ?_, ?_, ?_, ?_, ?_, ?_⟩
  · rw [hsnd]; simp
  · rw [hfst]; split <;> simp_all
  · rw [hfst]; split <;> simp_all
  · rw [hfst]; split <;> rfl
  · rw [hfst]; split <;>
      (intro r hr
       simp only [Option.some.injEq] at hr
       exact hr ▸ le_max_left 0 _)
  · rw [hfst]; split <;> rfl
  · intro n h1 hn
    rw [rateLimit_fst ctx keyHash now _ hk,
        runRequests_count ctx keyHash now hk (n - 1)]
    have hlt : ¬ getLimitForTier ctx.tier < (n - 1) + 1 := by omega
    simp [hlt]
  · rw [rateLimit_fst ctx keyHash now _ hk,
        runRequests_count ctx keyHash now hk _]
    simp
  · rw [rateLimit_fst ctx keyHash now _ hk,
        runRequests_count ctx keyHash now hk _]
    have hlt : getLimitForTier ctx.tier < getLimitForTier ctx.tier + 1 := by omega
    simp only [hlt, if_true, Option.some.injEq]
    push_cast
    omega

/-- Context of a request authenticated with an API key of tier `"team"`. -/
def c2ctx : ReqCtx := { apiKeyHash := some "kh", tier := "team", organizationID := "org-1" }

set_option maxRecDepth 20000 in
/-- C2 witness: for a concrete team-tier key in window 0 the first request
increments the counter from 0 to 1, and the request after the limit is
aborted. -/
theorem rate_limit_window_gate_witness :
    ((rateLimit c2ctx 0 true zeroStore).2 (rateLimitKey "kh" (rateWindow 0)) =
      zeroStore (rateLimitKey "kh" (rateWindow 0)) + 1) ∧
    ((rateLimit c2ctx 0 true
        (runRequests c2ctx 0 zeroStore (getLimitForTier "team"))).1.aborted = true) :=
  ⟨(rate_limit_window_gate c2ctx "kh" 0 zeroStore rfl).1,
   (rate_limit_window_gate c2ctx "kh" 0 zeroStore rfl).2.2.2.2.2.2.2.1⟩

/-- C1: tier enforcement of the usage gate. For a metered request
(nonempty organization id, successful atomic increment, reset boundary not
yet passed) whose effective tier is the lowest tier `"starter"`, the gate
aborts iff `usagePercent ≥ 100`, and every such abort carries HTTP 402 and
code `USAGE_LIMIT_EXCEEDED`; for the mid tiers `"team"` and `"scale"` it
aborts iff `usagePercent ≥ 120`, with HTTP 429 and code
`USAGE_LIMIT_THROTTLED`; for the top tier `"enterprise"` it never aborts.
The boundary cases of the claim (admit at 99.999, block at 100, admit at
119, throttle at 120) are instances of the two iffs. -/
theorem usage_tier_policy (orgID ctxTier : String) (now : Nat)
    (org : Organization) (resetOk : Bool) (refetch : Option Organization)
    (hOrg : ¬ orgID = "") (hNoReset : ¬ org.usageResetAt < now) :
    (effTier ctxTier org = "starter" →
      (((trackUsage orgID ctxTier now (some org) resetOk refetch).aborted = true ↔
        100 ≤ usagePercentQ org) ∧
       (100 ≤ usagePercentQ org →
        (trackUsage orgID ctxTier now (some org) resetOk refetch).httpStatus = some 402 ∧
        (trackUsage orgID ctxTier now (some org) resetOk refetch).errorCode =
          some "USAGE_LIMIT_EXCEEDED"))) ∧
    ((effTier ctxTier org = "team" ∨ effTier ctxTier org = "scale") →
      (((trackUsage orgID ctxTier now (some org) resetOk refetch).aborted = true ↔
        120 ≤ usagePercentQ org) ∧
       (120 ≤ usagePercentQ org →
        (trackUsage orgID ctxTier now (some org) resetOk refetch).httpStatus = some 429 ∧
        (trackUsage orgID ctxTier now (some org) resetOk refetch).errorCode =
          some "USAGE_LIMIT_THROTTLED"))) ∧
    (effTier ctxTier org = "enterprise" →
      (trackUsage orgID ctxTier now (some org) resetOk refetch).aborted = false) := by
  refine ⟨fun hA => ?_, fun hB => ?_, fun hC => ?_⟩
  · by_cases hp : (100 : ℚ) ≤ usagePercentQ org <;>
      simp [trackUsage, if_neg hOrg, if_neg hNoReset, hA, hp,
            show ("starter" : String) ≠ "team" by decide,
            show ("starter" : String) ≠ "scale" by decide]
  · rcases hB with hB | hB <;>
      by_cases hp : (120 : ℚ) ≤ usagePercentQ org <;>
      simp [trackUsage, if_neg hOrg, if_neg hNoReset, hB, hp,
            show ("team" : String) ≠ "starter" by decide,
            show ("scale" : String) ≠ "starter" by decide]
  · simp [trackUsage, if_neg hOrg, if_neg hNoReset, hC,
          show ("enterprise" : String) ≠ "starter" by decide,
          show ("enterprise" : String) ≠ "team" by decide,
          show ("enterprise" : String) ≠ "scale" by decide]

/-- Starter organization at 99.999% of its quota. -/
def orgStarter99999 : Organization := ⟨"starter", 100000, 99999, 1000⟩

/-- Starter organization at exactly 100% of its quota. -/
def orgStarter100 : Organization := ⟨"starter", 100, 100, 1000⟩

/-- Team organization at 119% of its quota. -/
def orgTeam119 : Organization := ⟨"team", 100, 119, 1000⟩

/-- Team organization at 120% of its quota. -/
def orgTeam120 : Organization := ⟨"team", 100, 120, 1000⟩

/-- C1 witness: the boundary cases of the claim — a starter organization at
99.999% is admitted and at exactly 100% is blocked; a team organization at
119% is admitted and at 120% is throttled. -/
theorem usage_tier_policy_witness :
    (trackUsage "org-1" "starter" 0 (some orgStarter99999) false none).aborted = false ∧
    (trackUsage "org-1" "starter" 0 (some orgStarter100) false none).aborted = true ∧
    (trackUsage "org-1" "team" 0 (some orgTeam119) false none).aborted = false ∧
    (trackUsage "org-1" "team" 0 (some orgTeam120) false none).aborted = true :=
  ⟨by simpa using
     (not_congr ((usage_tier_policy "org-1" "starter" 0 orgStarter99999 false none
       (by decide) (by decide)).1 (by decide)).1).mpr
       (by norm_num [usagePercentQ, orgStarter99999]),
   ((usage_tier_policy "org-1" "starter" 0 orgStarter100 false none
       (by decide) (by decide)).1 (by decide)).1.mpr
       (by norm_num [usagePercentQ, orgStarter100]),
   by simpa using
     (not_congr (((usage_tier_policy "org-1" "team" 0 orgTeam119 false none
       (by decide) (by decide)).2.1 (Or.inl (by decide))).1)).mpr
       (by norm_num [usagePercentQ, orgTeam119]),
   (((usage_tier_policy "org-1" "team" 0 orgTeam120 false none
       (by decide) (by decide)).2.1 (Or.inl (by decide))).1).mpr
       (by norm_num [usagePercentQ, orgTeam120])⟩

/-- C6: the authoritative (cache-miss) API-key path. `ErrNotFound` aborts
with 401; a revoked record aborts with 401; an expired record aborts with
401; any other lookup error aborts (with 500, fail closed) and never
admits; and the path admits exactly the lookups that return a record that
is neither revoked nor expired. -/
theorem auth_miss_fail_closed (res : KeyLookup) (cache : CacheMap)
    (keyHash : String) (now : Nat) :
    ((authOnMiss .notFound cache keyHash now).1 = .unauthorized ∧
      authStatus (authOnMiss .notFound cache keyHash now).1 = some 401) ∧
    (∀ k : APIKey, k.revokedAt.isSome = true →
      (authOnMiss (.found k) cache keyHash now).1 = .unauthorized ∧
      authStatus (authOnMiss (.found k) cache keyHash now).1 = some 401) ∧
    (∀ k : APIKey, isExpired k now = true →
      (authOnMiss (.found k) cache keyHash now).1 = .unauthorized ∧
      authStatus (authOnMiss (.found k) cache keyHash now).1 = some 401) ∧
    ((authOnMiss .dbError cache keyHash now).1 = .internalError ∧
      ∀ o t : String, (authOnMiss .dbError cache keyHash now).1 ≠ .admitted o t) ∧
    (∀ o t : String, (authOnMiss res cache keyHash now).1 = .admitted o t ↔
      ∃ k : APIKey, res = .found k ∧ k.revokedAt = none ∧ isExpired k now = false ∧
        o = k.organizationID ∧ t = k.tier) := by
  refine ⟨⟨rfl, rfl⟩, fun k hk => ?_, fun k hk => ?_, ⟨rfl, fun o t => by simp [authOnMiss]⟩,
    fun o t => ?_⟩
  · simp [authOnMiss, authStatus, hk]
  · by_cases hr : k.revokedAt.isSome <;> simp [authOnMiss, authStatus, hk, hr]
  · cases res with
    | dbError => simp [authOnMiss]
    | notFound => simp [authOnMiss]
    | found k =>
      by_cases hr : k.revokedAt.isSome
      · have hres : (authOnMiss (.found k) cache keyHash now).1 = .unauthorized := by
          simp [authOnMiss, hr]
        rw [hres]
        constructor
        · intro h; exact absurd h (by simp)
        · rintro ⟨k2, hk2, hnone, -, -, -⟩
          cases hk2
          simp_all
      · by_cases he : isExpired k now
        · have hres : (authOnMiss (.found k) cache keyHash now).1 = .unauthorized := by
            simp [authOnMiss, hr, he]
          rw [hres]
          constructor
          · intro h; exact absurd h (by simp)
          · rintro ⟨k2, hk2, -, hexp, -, -⟩
            cases hk2
            simp_all
        · have hres : (authOnMiss (.found k) cache keyHash now).1 =
              .admitted k.organizationID k.tier := by
            simp [authOnMiss, hr, he]
          rw [hres]
          constructor
          · intro h
            simp only [AuthOutcome.admitted.injEq] at h
            exact ⟨k, rfl, Option.not_isSome_iff_eq_none.mp hr,
              Bool.eq_false_iff.mpr he, h.1.symm, h.2.symm⟩
          · rintro ⟨k2, hk2, -, -, ho, ht⟩
            cases hk2
            rw [ho, ht]

/-- Revoked API key used in the C6 and C7 witnesses. -/
def revokedKey : APIKey :=
  { organizationID := "org-1", tier := "team", rateLimitRPM := 100,
    expiresAt := none, revokedAt := some 1000 }

/-- Valid API key used in the C6 and C7 witnesses. -/
def validKey : APIKey :=
  { organizationID := "org-1", tier := "team", rateLimitRPM := 100,
    expiresAt := none, revokedAt := none }

/-- Cache state with no entry for any hash. -/
def emptyCache : CacheMap := fun _ => none

/-- C6 witness: at concrete inputs, a revoked record is rejected with 401,
an expired record is rejected with 401, and a valid record is admitted. -/
theorem auth_miss_fail_closed_witness :
    ((authOnMiss (.found revokedKey) emptyCache "kh" 0).1 = .unauthorized ∧
      authStatus (authOnMiss (.found revokedKey) emptyCache "kh" 0).1 = some 401) ∧
    ((authOnMiss (.found ⟨"org-1", "team", 100, some 5, none⟩) emptyCache "kh" 10).1 =
        .unauthorized) ∧
    ((authOnMiss (.found validKey) emptyCache "kh" 0).1 = .admitted "org-1" "team") :=
  ⟨(auth_miss_fail_closed (.found revokedKey) emptyCache "kh" 0).2.1 revokedKey rfl,
   ((auth_miss_fail_closed (.found ⟨"org-1", "team", 100, some 5, none⟩) emptyCache
      "kh" 10).2.2.1 ⟨"org-1", "team", 100, some 5, none⟩ (by decide)).1,
   ((auth_miss_fail_closed (.found validKey) emptyCache "kh" 0).2.2.2.2
      "org-1" "team").mpr ⟨validKey, rfl, rfl, rfl, rfl, rfl⟩⟩

/-! ### Helper lemmas on the auth cache -/

/-- Cache effect of the authoritative path: either the cache is untouched,
or the lookup returned a currently valid record and exactly this key hash
received a fresh entry stamped `now` with a 300-second TTL. -/
theorem authOnMiss_write_valid (res : KeyLookup) (cache : CacheMap)
    (keyHash h2 : String) (now : Nat)
    (hne : (authOnMiss res cache keyHash now).2 h2 ≠ cache h2) :
    h2 = keyHash ∧ ∃ k : APIKey, res = .found k ∧ k.revokedAt = none ∧
      isExpired k now = false ∧
      (authOnMiss res cache keyHash now).2 h2 =
        some ⟨now, 300, k.tier, k.organizationID⟩ := by
  cases res with
  | dbError => exact absurd rfl hne
  | notFound => exact absurd rfl hne
  | found k =>
    by_cases hr : k.revokedAt.isSome
    · have hsnd : (authOnMiss (.found k) cache keyHash now).2 = cache := by
        simp [authOnMiss, hr]
      rw [hsnd] at hne
      exact absurd rfl hne
    · by_cases he : isExpired k now
      · have hsnd : (authOnMiss (.found k) cache keyHash now).2 = cache := by
          simp [authOnMiss, hr, he]
        rw [hsnd] at hne
        exact absurd rfl hne
      · have hsnd : (authOnMiss (.found k) cache keyHash now).2 = fun h =>
            if h = keyHash then some ⟨now, 300, k.tier, k.organizationID⟩
            else cache h := by
          simp [authOnMiss, hr, he]
        rw [hsnd] at hne ⊢
        by_cases hh : h2 = keyHash
        · subst hh
          exact ⟨rfl, k, rfl, Option.not_isSome_iff_eq_none.mp hr,
            Bool.eq_false_iff.mpr he, by simp⟩
        · simp [hh] at hne

/-- Cache effect of one full authentication step: a cache hit and every
rejecting path leave the cache untouched; only a confirmed-valid
authoritative lookup writes, and it writes a 300-second-TTL entry for this
key hash stamped with the current time. -/
theorem authenticate_write_valid (db : Nat → KeyLookup) (cache : CacheMap)
    (keyHash h2 : String) (now : Nat)
    (hne : (authenticate db cache keyHash now).2 h2 ≠ cache h2) :
    h2 = keyHash ∧ ∃ k : APIKey, db now = .found k ∧ k.revokedAt = none ∧
      isExpired k now = false ∧
      (authenticate db cache keyHash now).2 h2 =
        some ⟨now, 300, k.tier, k.organizationID⟩ := by
  cases hch : cache keyHash with
  | some e =>
    by_cases hhit : cacheHit e now
    · have hstep : (authenticate db cache keyHash now).2 = cache := by
        simp [authenticate, hch, hhit]
      rw [hstep] at hne
      exact absurd rfl hne
    · have hstep : (authenticate db cache keyHash now).2 =
          (authOnMiss (db now) cache keyHash now).2 := by
        simp [authenticate, hch, hhit]
      rw [hstep] at hne ⊢
      exact authOnMiss_write_valid (db now) cache keyHash h2 now hne
  | none =>
    have hstep : (authenticate db cache keyHash now).2 =
        (authOnMiss (db now) cache keyHash now).2 := by
      simp [authenticate, hch]
    rw [hstep] at hne ⊢
    exact authOnMiss_write_valid (db now) cache keyHash h2 now hne

/-- Invariant preserved by any trace of authentication attempts once the
key is revoked from time `tr` on: every cache entry for the hash dies no
later than `tr + 300` (its write time was before the revocation and its
TTL is 300 seconds). -/
theorem runAuth_entry_bound (db : Nat → KeyLookup) (tr : Nat) (keyHash : String)
    (hrev : ∀ s, tr ≤ s → ∃ k : APIKey, db s = .found k ∧ k.revokedAt.isSome = true)
    (ts : List Nat) (cache : CacheMap)
    (hc : ∀ e : CacheEntry, cache keyHash = some e →
      e.writtenAt + e.ttlSeconds ≤ tr + 300) :
    ∀ e : CacheEntry, runAuth db keyHash cache ts keyHash = some e →
      e.writtenAt + e.ttlSeconds ≤ tr + 300 := by
  induction ts generalizing cache with
  | nil => exact hc
  | cons t ts ih =>
    rw [runAuth]
    apply ih
    intro e he
    by_cases hch : (authenticate db cache keyHash t).2 keyHash = cache keyHash
    · exact hc e (hch ▸ he)
    · obtain ⟨-, k, hdbk, hkrev, -, hval⟩ :=
        authenticate_write_valid db cache keyHash keyHash t hch
      rw [hval] at he
      cases he
      have hlt : ¬ tr ≤ t := by
        intro hle
        obtain ⟨k2, hdbk2, hk2rev⟩ := hrev t hle
        rw [hdbk] at hdbk2
        cases hdbk2
        simp [hkrev] at hk2rev
      simp only [CacheEntry.mk.injEq] at *
      omega

/-! ### C7 claim theorem -/

/-- C7: auth-cache entries are written only when the authoritative lookup
has just confirmed the key valid, always with a 5-minute (300-second) TTL;
consequently, once the key's authoritative record is revoked from time `tr`
on, any request at or after `tr + 300` — whatever authentication traffic
happened in between, starting from any cache whose entry (if present)
predates the revocation with the normal TTL — misses the cache and is
rejected by the credential resolver. -/
theorem auth_cache_write_valid_and_staleness_bound :
    (∀ (db : Nat → KeyLookup) (cache : CacheMap) (keyHash h2 : String) (now : Nat),
      (authenticate db cache keyHash now).2 h2 ≠ cache h2 →
      h2 = keyHash ∧ ∃ k : APIKey, db now = .found k ∧ k.revokedAt = none ∧
        isExpired k now = false ∧
        (authenticate db cache keyHash now).2 h2 =
          some ⟨now, 300, k.tier, k.organizationID⟩) ∧
    (∀ (db : Nat → KeyLookup) (tr : Nat) (keyHash : String) (cache : CacheMap)
        (ts : List Nat) (t : Nat),
      (∀ s, tr ≤ s → ∃ k : APIKey, db s = .found k ∧ k.revokedAt.isSome = true) →
      (∀ e : CacheEntry, cache keyHash = some e →
        e.writtenAt + e.ttlSeconds ≤ tr + 300) →
      tr + 300 ≤ t →
      (authenticate db (runAuth db keyHash cache ts) keyHash t).1 = .unauthorized) := by
  refine ⟨authenticate_write_valid, ?_⟩
  intro db tr keyHash cache ts t hrev hc ht
  have hInv := runAuth_entry_bound db tr keyHash hrev ts cache hc
  obtain ⟨k, hdbk, hkrev⟩ := hrev t (le_trans (Nat.le_add_right tr 300) ht)
  have hmiss : (authOnMiss (db t) (runAuth db keyHash cache ts) keyHash t).1 =
      .unauthorized := by
    rw [hdbk]
    simp [authOnMiss, hkrev]
  cases hch : runAuth db keyHash cache ts keyHash with
  | none => simpa [authenticate, hch] using hmiss
  | some e =>
    have hle := hInv e hch
    have hhit : cacheHit e t = false := by
      simp only [cacheHit, Bool.and_eq_false_iff]
      left; left
      simp only [decide_eq_false_iff_not]
      omega
    simpa [authenticate, hch, hhit] using hmiss

/-- Authoritative record history for the C7 witness: the key is valid
before time 1000 and revoked from time 1000 on. -/
def c7db : Nat → KeyLookup := fun t =>
  if 1000 ≤ t then .found revokedKey else .found validKey

/-- C7 witness: a key revoked at time 1000, authenticated (and cached) at
time 500, is rejected at time 1300 = revocation + TTL. -/
theorem auth_cache_staleness_witness :
    (authenticate c7db (runAuth c7db "kh" emptyCache [500]) "kh" 1300).1 =
      .unauthorized :=
  auth_cache_write_valid_and_staleness_bound.2 c7db 1000 "kh" emptyCache [500] 1300
    (fun s hs => ⟨revokedKey, by simp [c7db, hs], rfl⟩)
    (fun e he => by simp [emptyCache] at he)
    (by decide)

end Regrada
